import Mathlib

/-
Verification of the matrix-rain digital rain engine against its design
specification.  The repository ships only the entry point `src/main.c`;
the rain engine itself (declared in `digital_rain.h`) is absent from the
sources, so the engine components (RandomGlyphSource, RainColumn,
RainGrid, AnimationLoop) are modelled from the spec, while the entry
point `main` is embedded from `src/main.c` directly.
-/

namespace MatrixRain

/-- Modelled from the spec: the immutable-after-init Configuration record
(`digital_rain.h` is absent from the sources).  Fields: `alphabet_only`
restricts the glyph set, `use_colors` toggles ANSI codes, `frame_delay_ms`
is the tick period. -/
structure Config where
  alphabet_only : Bool
  use_colors : Bool
  frame_delay_ms : Nat
deriving DecidableEq

/-- Modelled from the spec: a single deterministic seeded RNG stream
(linear congruential, explicit handle passed through spawn/advance). -/
structure Rng where
  seed : Nat
deriving DecidableEq

/-- One RNG step: new pseudo-random value together with the advanced state. -/
def Rng.next (r : Rng) : Nat × Rng :=
  ((r.seed * 1103515245 + 12345) % 2147483648,
   ⟨(r.seed * 1103515245 + 12345) % 2147483648⟩)

/-- Draw a value in the inclusive range `[lo, hi]` (collapses to `lo` when
`hi < lo`). -/
def randRange (r : Rng) (lo hi : Nat) : Nat × Rng :=
  (lo + r.next.1 % (hi - lo + 1), r.next.2)

/-- Modelled from the spec: the restricted "matrix" curated alphabet. -/
def matrixAlphabet : List Char :=
  ['0', '1', 'M', 'A', 'T', 'R', 'I', 'X']

/-- Modelled from the spec: the full printable-ASCII alphabet (control
characters excluded). -/
def fullAlphabet : List Char :=
  (List.range 94).map (fun n => Char.ofNat (33 + n))

/-- Modelled from the spec: RandomGlyphSource.next, a pure function of the
configuration and RNG state; always returns a glyph. -/
def glyphNext (cfg : Config) (r : Rng) : Char × Rng :=
  ((if cfg.alphabet_only then matrixAlphabet else fullAlphabet).getD
     (r.next.1 % (if cfg.alphabet_only then matrixAlphabet else fullAlphabet).length)
     '0',
   r.next.2)

/-- Build a list of `n` fresh glyphs, threading the RNG. -/
def glyphList (cfg : Config) : Nat → Rng → List Char × Rng
  | 0, r => ([], r)
  | n + 1, r =>
    ((glyphNext cfg r).1 :: (glyphList cfg n (glyphNext cfg r).2).1,
     (glyphList cfg n (glyphNext cfg r).2).2)

/-- Modelled from the spec: RainColumn per-column state — leading edge
`head_row` (may be negative while entering), trail `length`, per-tick
`speed`, and the glyph buffer. -/
structure RainColumn where
  head_row : Int
  length : Int
  speed : Int
  glyphs : List Char
deriving DecidableEq, Inhabited

/-- The validity invariant from the spec: positive trail length, speed at
least one, a populated glyph buffer. -/
def RainColumn.Valid (c : RainColumn) : Prop :=
  0 < c.length ∧ 1 ≤ c.speed ∧ c.glyphs ≠ []

instance (c : RainColumn) : Decidable c.Valid := by
  unfold RainColumn.Valid
  exact inferInstance

/-- Modelled from the spec: cellAt.  Returns the glyph and a fade intensity
in `[0,1]` if `row` lies within the inclusive interval
`[head_row - length, head_row]`, else none.  Intensity is `1` at the head
and decays linearly to `0` at the trail end. -/
def RainColumn.cellAt (c : RainColumn) (row : Int) : Option (Char × ℚ) :=
  if c.head_row - c.length ≤ row ∧ row ≤ c.head_row then
    some (c.glyphs.getD ((c.head_row - row).toNat % c.glyphs.length) '0',
          1 - ((c.head_row - row : Int) : ℚ) / ((c.length : Int) : ℚ))
  else none

/-- Modelled from the spec: advance.  `head_row += speed`; the glyph at the
head position is always re-rolled (deterministic design choice, documented
and consistent); returns whether the column is still active:
`head_row - length ≤ terminal_rows`. -/
def RainColumn.advance (c : RainColumn) (cfg : Config) (r : Rng)
    (terminal_rows : Int) : RainColumn × Rng × Bool :=
  let g := glyphNext cfg r
  let c2 : RainColumn :=
    { c with head_row := c.head_row + c.speed, glyphs := c.glyphs.set 0 g.1 }
  (c2, g.2, decide (c2.head_row - c2.length ≤ terminal_rows))

/-- Randomized speed in the design range 1–3. -/
def spawnSpeed (r : Rng) : Nat × Rng := randRange r 1 3

/-- Randomized trail length in the design range 4–terminal_rows. -/
def spawnLen (terminal_rows : Int) (r : Rng) : Nat × Rng :=
  randRange r 4 (max 4 terminal_rows.toNat)

/-- Randomized start delay; the head starts that far above the visible area. -/
def spawnDelay (terminal_rows : Int) (r : Rng) : Nat × Rng :=
  randRange r 0 terminal_rows.toNat

/-- Modelled from the spec: spawn.  Randomized speed (1–3), randomized
length (4–terminal_rows), `head_row` starting above the visible area
(strictly negative, proportional to a random delay), and a fully-populated
glyph buffer. -/
def RainColumn.spawn (terminal_rows : Int) (cfg : Config) (r : Rng) :
    RainColumn × Rng :=
  let p1 := spawnSpeed r
  let p2 := spawnLen terminal_rows p1.2
  let p3 := spawnDelay terminal_rows p2.2
  let p4 := glyphList cfg (p2.1 + 1) p3.2
  ({ head_row := -1 - (p3.1 : Int), length := (p2.1 : Int),
     speed := (p1.1 : Int), glyphs := p4.1 }, p4.2)

/-- Modelled from the spec: RainGrid owns one RainColumn per terminal
column index, plus the shared RNG stream and the configuration. -/
structure RainGrid where
  rows : Int
  cols : Nat
  columns : List RainColumn
  rng : Rng
  cfg : Config

/-- Spawn `n` fresh columns, threading the RNG in column order. -/
def spawnN (terminal_rows : Int) (cfg : Config) : Nat → Rng → List RainColumn × Rng
  | 0, r => ([], r)
  | n + 1, r =>
    ((RainColumn.spawn terminal_rows cfg r).1 ::
       (spawnN terminal_rows cfg n (RainColumn.spawn terminal_rows cfg r).2).1,
     (spawnN terminal_rows cfg n (RainColumn.spawn terminal_rows cfg r).2).2)

/-- Modelled from the spec: resize rebuilds the column sequence to length
`cols`, discarding prior state. -/
def RainGrid.resize (g : RainGrid) (rows : Int) (cols : Nat) : RainGrid :=
  { rows := rows, cols := cols,
    columns := (spawnN rows g.cfg cols g.rng).1,
    rng := (spawnN rows g.cfg cols g.rng).2,
    cfg := g.cfg }

/-- Advance every column in order; a column that became inactive is
immediately respawned, so the count is preserved. -/
def tickColumns (rows : Int) (cfg : Config) :
    List RainColumn → Rng → List RainColumn × Rng
  | [], r => ([], r)
  | c :: cs, r =>
    let a := c.advance cfg r rows
    let p := if a.2.2 then (a.1, a.2.1) else RainColumn.spawn rows cfg a.2.1
    ((p.1 :: (tickColumns rows cfg cs p.2).1),
     (tickColumns rows cfg cs p.2).2)

/-- Modelled from the spec: tick calls advance on every column and respawns
any column that became inactive. -/
def RainGrid.tick (g : RainGrid) : RainGrid :=
  { g with columns := (tickColumns g.rows g.cfg g.columns g.rng).1,
           rng := (tickColumns g.rows g.cfg g.columns g.rng).2 }

/-- Events of the animation loop trace, tagged with their tick index. -/
inductive LoopEvent
  | painted
  | cancelObserved
deriving DecidableEq

/-- Modelled from the spec: AnimationLoop.  Cancellation is polled at the
top of each tick, before mutating state; a non-cancelled tick advances the
grid and paints one frame.  `fuel` bounds the run, `i` is the tick index. -/
def animRun (cancel : Nat → Bool) : Nat → Nat → RainGrid → List (Nat × LoopEvent)
  | 0, _, _ => []
  | fuel + 1, i, g =>
    if cancel i then [(i, LoopEvent.cancelObserved)]
    else (i, LoopEvent.painted) :: animRun cancel fuel (i + 1) g.tick

/-- Events of the entry point's observable behavior. -/
inductive MainEvent
  | banner
  | initCalled
  | rawModeEntered
  | errLine (msg : String)
  | runCalled
  | destroyCalled
deriving DecidableEq

/-- The diagnostic main prints to stderr on init failure (src/main.c). -/
def initFailMsg : String := "Failed to initialize digital rain"

/-- Modelled from the spec: digital_rain_create returns the default
configuration (alphabet_only false, use_colors true, a tick period in the
design range). -/
def digital_rain_create : Config :=
  { alphabet_only := false, use_colors := true, frame_delay_ms := 80 }

/-- The configuration main.c builds before calling digital_rain_init:
the created record with alphabet_only := false, use_colors := true,
frame_delay_ms := 80 written before init. -/
def mainConfig : Config :=
  { digital_rain_create with
      alphabet_only := false, use_colors := true, frame_delay_ms := 80 }

/-- Shallow embedding of main (src/main.c): print the banner, create and
configure, call digital_rain_init; on failure print one diagnostic line to
stderr and return 1 (no cleanup, and — modelled from the spec — init
acquires nothing, so raw mode was never entered); on success run the
animation, destroy, and return 0. -/
def mainRun (initOk : Bool) : Nat × List MainEvent :=
  if initOk then
    (0, [MainEvent.banner, MainEvent.initCalled, MainEvent.rawModeEntered,
         MainEvent.runCalled, MainEvent.destroyCalled])
  else
    (1, [MainEvent.banner, MainEvent.initCalled, MainEvent.errLine initFailMsg])

/-- Modelled from the spec: digital_rain_init provisions the grid from the
terminal size with the caller's configuration. -/
def initGrid (rows : Int) (cols : Nat) (cfg : Config) (r : Rng) : RainGrid :=
  RainGrid.resize { rows := rows, cols := 0, columns := [], rng := r, cfg := cfg }
    rows cols

/-- A concrete trail used to instantiate the per-column theorems. -/
def demoColumn : RainColumn :=
  { head_row := 0, length := 3, speed := 1, glyphs := ['a', 'b', 'c', 'd'] }

/-- The spec's scenario column: speed 1, length 3, head starting at row -2. -/
def scnColumn : RainColumn :=
  { head_row := -2, length := 3, speed := 1, glyphs := ['a', 'b', 'c', 'd'] }

/-- The spec's scenario grid: one column, seeded RNG. -/
def scnGrid : RainGrid :=
  { rows := 24, cols := 1, columns := [scnColumn], rng := ⟨42⟩, cfg := mainConfig }

/-- An empty grid used to instantiate the animation-loop theorem. -/
def emptyGrid : RainGrid :=
  { rows := 24, cols := 0, columns := [], rng := ⟨1⟩, cfg := mainConfig }

/-- A concrete cancellation signal: set from tick 2 on. -/
def demoCancel (n : Nat) : Bool := decide (2 ≤ n)

theorem randRange_fst_le (r : Rng) (lo hi : Nat) : lo ≤ (randRange r lo hi).1 :=
  Nat.le_add_right _ _

theorem advance_head (c : RainColumn) (cfg : Config) (r : Rng) (rows : Int) :
    (c.advance cfg r rows).1.head_row = c.head_row + c.speed := rfl

theorem advance_len (c : RainColumn) (cfg : Config) (r : Rng) (rows : Int) :
    (c.advance cfg r rows).1.length = c.length := rfl

theorem advance_speed (c : RainColumn) (cfg : Config) (r : Rng) (rows : Int) :
    (c.advance cfg r rows).1.speed = c.speed := rfl

theorem spawnN_fst_length (rows : Int) (cfg : Config) :
    ∀ n r, ((spawnN rows cfg n r).1).length = n := by
  intro n
  induction n with
  | zero => intro r; rfl
  | succ m ih => intro r; simp [spawnN, ih]

theorem tickColumns_fst_length (rows : Int) (cfg : Config) :
    ∀ cs : List RainColumn, ∀ r, ((tickColumns rows cfg cs r).1).length = cs.length := by
  intro cs
  induction cs with
  | nil => intro r; rfl
  | cons c cs ih => intro r; simp [tickColumns, ih]

theorem tick_columns_length (g : RainGrid) :
    (g.tick).columns.length = g.columns.length :=
  tickColumns_fst_length g.rows g.cfg g.columns g.rng

theorem tick_cfg (g : RainGrid) : (g.tick).cfg = g.cfg := rfl

theorem resize_columns_length (g : RainGrid) (rows : Int) (cols : Nat) :
    (g.resize rows cols).columns.length = cols :=
  spawnN_fst_length rows g.cfg cols g.rng

/-- C3: one call to advance yields head_row equal to the previous head_row
plus speed, and returns active exactly when head_row - length ≤
terminal_rows after the step. -/
theorem c3_advance_step (c : RainColumn) (cfg : Config) (r : Rng) (rows : Int) :
    (c.advance cfg r rows).1.head_row = c.head_row + c.speed ∧
      ((c.advance cfg r rows).2.2 = true ↔
        (c.advance cfg r rows).1.head_row - (c.advance cfg r rows).1.length ≤ rows) := by
  refine ⟨rfl, ?_⟩
  simp [RainColumn.advance]

/-- C6: every spawned column has positive length, speed at least one, and a
head strictly above the visible area; the length and speed bounds persist
through advance. -/
theorem c6_spawn_bounds (rows : Int) (cfg : Config) (r : Rng) :
    0 < ((RainColumn.spawn rows cfg r).1).length ∧
      1 ≤ ((RainColumn.spawn rows cfg r).1).speed ∧
      ((RainColumn.spawn rows cfg r).1).head_row < 0 ∧
      ∀ cfg2 r2 tr,
        0 < (((RainColumn.spawn rows cfg r).1).advance cfg2 r2 tr).1.length ∧
          1 ≤ (((RainColumn.spawn rows cfg r).1).advance cfg2 r2 tr).1.speed := by
  have hlen : 4 ≤ (spawnLen rows (spawnSpeed r).2).1 := randRange_fst_le _ _ _
  have hsp : 1 ≤ (spawnSpeed r).1 := randRange_fst_le _ _ _
  have h1 : 0 < ((RainColumn.spawn rows cfg r).1).length := by
    show (0 : Int) < ((spawnLen rows (spawnSpeed r).2).1 : Int)
    omega
  have h2 : 1 ≤ ((RainColumn.spawn rows cfg r).1).speed := by
    show (1 : Int) ≤ ((spawnSpeed r).1 : Int)
    omega
  have h3 : ((RainColumn.spawn rows cfg r).1).head_row < 0 := by
    show -1 - ((spawnDelay rows (spawnLen rows (spawnSpeed r).2).2).1 : Int) < 0
    omega
  exact ⟨h1, h2, h3, fun cfg2 r2 tr => ⟨by rw [advance_len]; exact h1,
    by rw [advance_speed]; exact h2⟩⟩

/-- C1: cellAt returns a glyph with a fade intensity in [0,1] exactly on
the inclusive interval [head_row - length, head_row], and none for every
row outside it. -/
theorem c1_cellAt_range (c : RainColumn) (h : c.Valid) (row : Int) :
    (c.head_row - c.length ≤ row ∧ row ≤ c.head_row →
      ∃ g i, c.cellAt row = some (g, i) ∧ 0 ≤ i ∧ i ≤ 1) ∧
      (¬(c.head_row - c.length ≤ row ∧ row ≤ c.head_row) → c.cellAt row = none) := by
  constructor
  · intro hin
    obtain ⟨hin1, hin2⟩ := hin
    have hL : (0 : ℚ) < ((c.length : Int) : ℚ) := by exact_mod_cast h.1
    have hd0 : (0 : ℚ) ≤ ((c.head_row - row : Int) : ℚ) := by
      have hz : (0 : Int) ≤ c.head_row - row := by omega
      exact_mod_cast hz
    have hdL : ((c.head_row - row : Int) : ℚ) ≤ ((c.length : Int) : ℚ) := by
      have hz : c.head_row - row ≤ c.length := by omega
      exact_mod_cast hz
    refine ⟨c.glyphs.getD ((c.head_row - row).toNat % c.glyphs.length) '0',
      1 - ((c.head_row - row : Int) : ℚ) / ((c.length : Int) : ℚ), ?_, ?_, ?_⟩
    · unfold RainColumn.cellAt
      rw [if_pos ⟨hin1, hin2⟩]
    · have hq : ((c.head_row - row : Int) : ℚ) / ((c.length : Int) : ℚ) ≤ 1 :=
        (div_le_one hL).mpr hdL
      linarith
    · have hq : 0 ≤ ((c.head_row - row : Int) : ℚ) / ((c.length : Int) : ℚ) :=
        div_nonneg hd0 hL.le
      linarith
  · intro hout
    unfold RainColumn.cellAt
    rw [if_neg hout]

/-- Witness for c1_cellAt_range at the concrete column demoColumn and the
out-of-trail row 5. -/
theorem c1_cellAt_range_witness :
    demoColumn.Valid ∧ demoColumn.cellAt 5 = none := by
  refine ⟨by decide, ?_⟩
  exact (c1_cellAt_range demoColumn (by decide) 5).2 (by decide)

/-- C2: the intensity at the head row is the maximum 1, and for any two
in-trail rows the intensity is non-increasing as the distance from the head
grows. -/
theorem c2_intensity_profile (c : RainColumn) (h : c.Valid) :
    (∃ g, c.cellAt c.head_row = some (g, 1)) ∧
      ∀ r1 r2 g1 i1 g2 i2, c.cellAt r1 = some (g1, i1) →
        c.cellAt r2 = some (g2, i2) →
        c.head_row - r1 ≤ c.head_row - r2 → i2 ≤ i1 := by
  have hL : (0 : ℚ) < ((c.length : Int) : ℚ) := by exact_mod_cast h.1
  constructor
  · have hcond : c.head_row - c.length ≤ c.head_row ∧ c.head_row ≤ c.head_row := by
      have := h.1
      omega
    refine ⟨c.glyphs.getD 0 '0', ?_⟩
    unfold RainColumn.cellAt
    rw [if_pos hcond]
    simp
  · intro r1 r2 g1 i1 g2 i2 h1 h2 hle
    unfold RainColumn.cellAt at h1 h2
    split at h1
    case isFalse => exact absurd h1 (by simp)
    case isTrue hc1 =>
      split at h2
      case isFalse => exact absurd h2 (by simp)
      case isTrue hc2 =>
        simp only [Option.some.injEq, Prod.mk.injEq] at h1 h2
        rw [← h1.2, ← h2.2]
        have hz : (0 : Int) ≤ (c.head_row - r2) - (c.head_row - r1) := by omega
        have key : 0 ≤ ((c.head_row - r2 : Int) : ℚ) / ((c.length : Int) : ℚ)
            - ((c.head_row - r1 : Int) : ℚ) / ((c.length : Int) : ℚ) := by
          rw [div_sub_div_same]
          refine div_nonneg ?_ hL.le
          rw [← Int.cast_sub]
          exact_mod_cast hz
        linarith

/-- Witness for c2_intensity_profile at the concrete column demoColumn:
the intensity at the head row evaluates to 1. -/
theorem c2_intensity_profile_witness :
    demoColumn.Valid ∧
      (demoColumn.cellAt demoColumn.head_row).map Prod.snd = some 1 := by
  refine ⟨by decide, ?_⟩
  obtain ⟨g, hg⟩ := (c2_intensity_profile demoColumn (by decide)).1
  rw [hg]
  rfl

/-- C4: immediately after resize(r, c) the grid has exactly c columns, and
any number of ticks preserves that count (inactive columns are respawned in
place). -/
theorem c4_column_count (g : RainGrid) (rows : Int) (cols : Nat) (n : Nat) :
    (g.resize rows cols).columns.length = cols ∧
      (RainGrid.tick^[n] (g.resize rows cols)).columns.length = cols := by
  refine ⟨resize_columns_length g rows cols, ?_⟩
  induction n with
  | zero => exact resize_columns_length g rows cols
  | succ m ih =>
    rw [Function.iterate_succ_apply', tick_columns_length, ih]

theorem cellAt_isSome_of_mem (c : RainColumn) (row : Int)
    (h : c.head_row - c.length ≤ row ∧ row ≤ c.head_row) :
    (c.cellAt row).isSome = true := by
  unfold RainColumn.cellAt
  rw [if_pos h]
  rfl

theorem cellAt_none_of_not_mem (c : RainColumn) (row : Int)
    (h : ¬(c.head_row - c.length ≤ row ∧ row ≤ c.head_row)) :
    c.cellAt row = none := by
  unfold RainColumn.cellAt
  rw [if_neg h]

theorem cellAt_head_snd (c : RainColumn) (hpos : 0 < c.length) :
    (c.cellAt c.head_row).map Prod.snd = some 1 := by
  unfold RainColumn.cellAt
  rw [if_pos ⟨by omega, le_refl _⟩]
  simp

/-- C5 counterexample: in the spec's scenario (cols = 1, seeded RNG,
speed 1, length 3, head_row starting at -2), after two ticks the head is at
row 0 and row -1 lies inside the trail, so cellAt (-1) is Some, not none as
the claim states. -/
theorem c5_counterexample :
    ¬((RainGrid.tick (RainGrid.tick scnGrid)).columns.headI.cellAt (-1) = none) := by
  have hh : (RainGrid.tick (RainGrid.tick scnGrid)).columns.headI.head_row = 0 := by
    decide
  have hl : (RainGrid.tick (RainGrid.tick scnGrid)).columns.headI.length = 3 := by
    decide
  have hs : ((RainGrid.tick (RainGrid.tick scnGrid)).columns.headI.cellAt (-1)).isSome
      = true := by
    apply cellAt_isSome_of_mem
    rw [hh, hl]
    decide
  intro hnone
  rw [hnone] at hs
  exact Bool.false_ne_true hs

/-- C5 amended: in the scenario grid, after exactly two ticks the head is
at row 0, cellAt 0 has intensity 1, rows -1 and -2 lie inside the trail
[head_row - length, head_row] = [-3, 0] so cellAt returns Some there, and
rows outside the trail (1 and -4) give none. -/
theorem c5_scenario :
    (RainGrid.tick (RainGrid.tick scnGrid)).columns.headI.head_row = 0 ∧
      ((RainGrid.tick (RainGrid.tick scnGrid)).columns.headI.cellAt 0).map
        Prod.snd = some 1 ∧
      ((RainGrid.tick (RainGrid.tick scnGrid)).columns.headI.cellAt (-1)).isSome
        = true ∧
      ((RainGrid.tick (RainGrid.tick scnGrid)).columns.headI.cellAt (-2)).isSome
        = true ∧
      (RainGrid.tick (RainGrid.tick scnGrid)).columns.headI.cellAt 1 = none ∧
      (RainGrid.tick (RainGrid.tick scnGrid)).columns.headI.cellAt (-4) = none := by
  have hh : (RainGrid.tick (RainGrid.tick scnGrid)).columns.headI.head_row = 0 := by
    decide
  have hl : (RainGrid.tick (RainGrid.tick scnGrid)).columns.headI.length = 3 := by
    decide
  refine ⟨hh, ?_, ?_, ?_, ?_, ?_⟩
  · have := cellAt_head_snd ((RainGrid.tick (RainGrid.tick scnGrid)).columns.headI)
      (by rw [hl]; decide)
    rwa [hh] at this
  · apply cellAt_isSome_of_mem
    rw [hh, hl]
    decide
  · apply cellAt_isSome_of_mem
    rw [hh, hl]
    decide
  · apply cellAt_none_of_not_mem
    rw [hh, hl]
    decide
  · apply cellAt_none_of_not_mem
    rw [hh, hl]
    decide

/-- C7: on init failure, main prints a one-line diagnostic to stderr and
exits non-zero; no cleanup runs — destroy is never reached and raw mode was
never entered. -/
theorem c7_init_failure :
    (mainRun false).1 ≠ 0 ∧
      MainEvent.errLine initFailMsg ∈ (mainRun false).2 ∧
      MainEvent.destroyCalled ∉ (mainRun false).2 ∧
      MainEvent.rawModeEntered ∉ (mainRun false).2 := by
  refine ⟨by decide, ?_, ?_, ?_⟩ <;> decide

/-- C8: the configuration is written only before init; the grid carries the
same configuration record through every tick of the run, equal to the one
main passed to digital_rain_init. -/
theorem c8_config_immutable (n : Nat) (rows : Int) (cols : Nat) (r : Rng) :
    (RainGrid.tick^[n] (initGrid rows cols mainConfig r)).cfg = mainConfig := by
  induction n with
  | zero => rfl
  | succ m ih => rw [Function.iterate_succ_apply', tick_cfg, ih]

theorem animRun_index_le (cancel : Nat → Bool) :
    ∀ fuel i g j e, (j, e) ∈ animRun cancel fuel i g → i ≤ j := by
  intro fuel
  induction fuel with
  | zero =>
    intro i g j e hm
    simp [animRun] at hm
  | succ n ih =>
    intro i g j e hm
    unfold animRun at hm
    split at hm
    · rw [List.mem_singleton, Prod.mk.injEq] at hm
      omega
    · rcases List.mem_cons.mp hm with h1 | h1
      · rw [Prod.mk.injEq] at h1
        omega
      · have := ih (i + 1) g.tick j e h1
        omega

/-- C9: in any animation-loop trace, every painted frame precedes the tick
at which cancellation was observed — the loop never paints after observing
cancellation. -/
theorem c9_no_paint_after_cancel (cancel : Nat → Bool) (fuel i : Nat)
    (g : RainGrid) (j k : Nat)
    (hp : (j, LoopEvent.painted) ∈ animRun cancel fuel i g)
    (hc : (k, LoopEvent.cancelObserved) ∈ animRun cancel fuel i g) : j < k := by
  induction fuel generalizing i g with
  | zero =>
    simp [animRun] at hp
  | succ n ih =>
    unfold animRun at hp hc
    by_cases hci : cancel i
    · rw [if_pos hci, List.mem_singleton, Prod.mk.injEq] at hp
      exact absurd hp.2 (by simp)
    · rw [if_neg hci] at hp hc
      rcases List.mem_cons.mp hp with h1 | h1
      · rcases List.mem_cons.mp hc with h2 | h2
        · rw [Prod.mk.injEq] at h2
          exact absurd h2.2 (by simp)
        · have hk := animRun_index_le cancel n (i + 1) g.tick k _ h2
          rw [Prod.mk.injEq] at h1
          omega
      · rcases List.mem_cons.mp hc with h2 | h2
        · rw [Prod.mk.injEq] at h2
          exact absurd h2.2 (by simp)
        · exact ih (i + 1) g.tick h1 h2

/-- Witness for c9_no_paint_after_cancel on a concrete run: with
cancellation set from tick 2, the paint at tick 0 precedes the observation
at tick 2. -/
theorem c9_no_paint_after_cancel_witness :
    ((0, LoopEvent.painted) ∈ animRun demoCancel 5 0 emptyGrid ∧
        (2, LoopEvent.cancelObserved) ∈ animRun demoCancel 5 0 emptyGrid) ∧
      0 < 2 := by
  refine ⟨⟨by decide, by decide⟩, ?_⟩
  exact c9_no_paint_after_cancel demoCancel 5 0 emptyGrid 0 2 (by decide) (by decide)

/-- C10: whenever init succeeds main runs the animation, destroys, and
returns 0 (run before destroy, both exactly once); destroy is never called
on the init-failure path. -/
theorem c10_main_paths :
    (mainRun true).1 = 0 ∧
      (mainRun true).2 =
        [MainEvent.banner, MainEvent.initCalled, MainEvent.rawModeEntered,
         MainEvent.runCalled, MainEvent.destroyCalled] ∧
      MainEvent.destroyCalled ∉ (mainRun false).2 := by
  refine ⟨rfl, rfl, ?_⟩
  decide

end MatrixRain
